import Mathlib

/-!
Verification of the confidence-scoring, feature-extraction and RAG re-ranking
core of the case-analysis application.

The Python sources (`confidence_scoring.py`, `feature_extraction.py`,
`enhanced_rag_system.py`) are shallowly embedded below: every numeric value is
an exact rational (`ℚ`), floating-point transcendental steps (`math.sqrt`,
`math.log`, `math.exp`) are modelled over `ℝ`, Python dictionaries with
optional keys become `Option` fields, and Python exceptions become `Except`.
String scanning (`in`, `.lower()`, `.split()`) is modelled by structural
functions on character lists so that concrete runs reduce inside the kernel.
-/

/-! ## Python primitives -/

/-- Python `min(a, b)` on numbers: returns the first argument on ties. -/
def pyMin (a b : ℚ) : ℚ := if a ≤ b then a else b

/-- Python `max(a, b)` on numbers: returns the first argument on ties. -/
def pyMax (a b : ℚ) : ℚ := if b ≤ a then a else b

/-- ASCII model of `str.lower` on a single character. -/
def charLower (c : Char) : Char :=
  if 'A' ≤ c ∧ c ≤ 'Z' then Char.ofNat (c.toNat + 32) else c

/-- Model of Python `str.lower()` (ASCII case folding). -/
def lowerStr (s : String) : String := ⟨s.data.map charLower⟩

/-- Whether the first list is an initial segment of the second. -/
def startsWithList : List Char → List Char → Bool
  | [], _ => true
  | _ :: _, [] => false
  | a :: as, b :: bs => a == b && startsWithList as bs

/-- Whether the first list occurs inside the second. -/
def hasSub : List Char → List Char → Bool
  | [], n => n.isEmpty
  | h :: t, n => startsWithList n (h :: t) || hasSub t n

/-- Model of the Python substring test `needle in hay`. -/
def pyIn (needle hay : String) : Bool := hasSub hay.data needle.data

/-- Whitespace characters recognised by Python `str.split()`. -/
def isSpaceChar (c : Char) : Bool := c == ' ' || c == '\t' || c == '\n' || c == '\r'

/-- Accumulating worker for `pyWords`. -/
def wordsAux : List Char → List Char → List (List Char)
  | [], acc => if acc.isEmpty then [] else [acc.reverse]
  | c :: cs, acc =>
    if isSpaceChar c then
      (if acc.isEmpty then wordsAux cs [] else acc.reverse :: wordsAux cs [])
    else wordsAux cs (c :: acc)

/-- Model of Python `s.split()` with no argument: split on whitespace runs,
dropping empty fields. -/
def pyWords (s : String) : List (List Char) := wordsAux s.data []

/-- Model of `len(s.split())`. -/
def pyWordCount (s : String) : ℕ := (pyWords s).length

/-- Python truthiness of a string: non-empty. -/
def pyTruthy (s : String) : Bool := !s.isEmpty

/-! ## Confidence classification (`confidence_scoring.py`, `ConfidenceScorer`) -/

/-- The ordered bucket table `self.confidence_classifications`
(`confidence_scoring.py` lines 57-64); Python 3.7+ dictionaries iterate in
insertion order. -/
def confidence_classifications : List ((ℚ × ℚ) × String) :=
  [((9, 10), "Very High Confidence"),
   ((7, 8), "High Confidence"),
   ((5, 6), "Moderate Confidence"),
   ((3, 4), "Low Confidence"),
   ((1, 2), "Very Low Confidence")]

/-- The bucket scan underlying the classification loop: first bucket whose
inclusive range contains the score. -/
def bucket_lookup (score : ℚ) : List ((ℚ × ℚ) × String) → Option String
  | [] => none
  | rc :: rest =>
    if rc.1.1 ≤ score ∧ score ≤ rc.1.2 then some rc.2 else bucket_lookup score rest

/-- The classification loop of `calculate_multi_dimensional_confidence`
(lines 104-109) and `calculate_consensus_confidence` (lines 1055-1060):
start from "Unknown", take the first bucket whose inclusive range contains
the score, and break. -/
def classify_confidence (score : ℚ) : String :=
  (bucket_lookup score confidence_classifications).getD "Unknown"

/-- The per-case-type dimension weight tables
`self.default_dimension_weights` (lines 26-55). -/
def default_dimension_weights (case_type : String) : List (String × ℚ) :=
  if case_type = "personal_injury" then
    [("evidential_confidence", (1/4)), ("methodological_confidence", (3/20)),
     ("precedential_confidence", (1/5)), ("data_adequacy_confidence", (1/4)),
     ("stability_confidence", (3/20))]
  else if case_type = "contract_dispute" then
    [("evidential_confidence", (1/5)), ("methodological_confidence", (3/20)),
     ("precedential_confidence", (1/4)), ("data_adequacy_confidence", (1/5)),
     ("stability_confidence", (1/5))]
  else if case_type = "employment" then
    [("evidential_confidence", (1/5)), ("methodological_confidence", (3/20)),
     ("precedential_confidence", (1/4)), ("data_adequacy_confidence", (1/5)),
     ("stability_confidence", (1/5))]
  else
    [("evidential_confidence", (1/5)), ("methodological_confidence", (1/5)),
     ("precedential_confidence", (1/5)), ("data_adequacy_confidence", (1/5)),
     ("stability_confidence", (1/5))]

/-- Lookup `dimension in dimension_weights` plus `dimension_weights[dimension]`. -/
def weight_lookup (ws : List (String × ℚ)) (d : String) : Option ℚ :=
  (ws.find? (fun p => p.1 == d)).map Prod.snd

/-- Result record of `calculate_multi_dimensional_confidence`; the
recommendation and echo fields are omitted as no verified claim reads them. -/
structure MultiDimensionalConfidence where
  overall_confidence_score : ℚ
  confidence_classification : String
  deriving DecidableEq, Repr

/-- Embedding of `calculate_multi_dimensional_confidence` (lines 66-128) with
caller-provided `dimension_scores` (the `dimension_scores` parameter of the
source; `features_case_type` is
`extracted_features["case_characteristics"]["case_type"]["primary_type"]`
when those keys exist, reset to "default" when absent or not a key of the
weight table). -/
def calculate_multi_dimensional_confidence (features_case_type : Option String)
    (dimension_scores : List (String × ℚ)) : MultiDimensionalConfidence :=
  let case_type :=
    match features_case_type with
    | some ct =>
        if ct = "personal_injury" ∨ ct = "contract_dispute" ∨ ct = "employment" ∨ ct = "default"
        then ct else "default"
    | none => "default"
  let dimension_weights := default_dimension_weights case_type
  let weighted_sum := dimension_scores.foldl
    (fun acc ds =>
      match weight_lookup dimension_weights ds.1 with
      | some w => acc + ds.2 * w
      | none => acc) 0
  let overall_score := pyMin 10 (pyMax 1 (weighted_sum * 10))
  { overall_confidence_score := overall_score,
    confidence_classification := classify_confidence overall_score }

/-! ## Case records (`feature_extraction.py`, `FeatureExtractor`) -/

/-- The case dictionary as read by `FeatureExtractor`: every text field is
accessed through `case_data.get(key, "")`, so an absent key and an empty
string coincide; `damages` is read through `float(case_data.get("damages", 0.0))`
and is modelled as a number. -/
structure CaseRecord where
  title : String
  court : String
  claim_type : String
  facts : String
  injury_details : String
  injury_types : List String
  damages : ℚ
  date_filed : String
  insurance_company : String
  plaintiff_medical_expert : String
  defendant_medical_expert : String
  plaintiff_non_medical_expert : String
  defendant_non_medical_expert : String
  deriving DecidableEq, Repr

/-- A record with every field empty. -/
def emptyRecord : CaseRecord :=
  ⟨"", "", "", "", "", [], 0, "", "", "", "", "", ""⟩

/-! ## Case type features (`extract_case_type_features`, lines 162-228) -/

/-- Output fields of `extract_case_type_features` (`type_data` is a lookup
into the static `case_type_data` table and is represented by the
`case_type_avg_duration` accessor below). -/
structure CaseTypeFeatures where
  primary_type : String
  subtype : String
  complexity : String
  deriving DecidableEq, Repr

/-- Embedding of `extract_case_type_features`, including the complexity
cascade of lines 219-227 exactly as written (`if word_count > 500` before
`elif word_count > 1000`). -/
def extract_case_type_features (r : CaseRecord) : CaseTypeFeatures :=
  let claim_type := lowerStr r.claim_type
  let pt_sub : String × String :=
    if pyIn "personal injury" claim_type || pyIn "injury" claim_type then
      ("personal_injury",
        if pyIn "vehicle" claim_type || pyIn "car" claim_type || pyIn "auto" claim_type then
          "motor_vehicle"
        else if pyIn "slip" claim_type || pyIn "fall" claim_type then "slip_fall"
        else if pyIn "medical" claim_type || pyIn "malpractice" claim_type then
          "medical_malpractice"
        else if pyIn "product" claim_type then "product_liability"
        else if pyIn "work" claim_type || pyIn "employment" claim_type then "workplace"
        else "unknown")
    else if pyIn "contract" claim_type || pyIn "agreement" claim_type then
      ("contract_dispute",
        if pyIn "breach" claim_type then "breach"
        else if pyIn "performance" claim_type then "performance"
        else if pyIn "payment" claim_type then "payment"
        else if pyIn "warranty" claim_type then "warranty"
        else "unknown")
    else if pyIn "employment" claim_type || pyIn "worker" claim_type then
      ("employment",
        if pyIn "discrimination" claim_type then "discrimination"
        else if pyIn "harassment" claim_type then "harassment"
        else if pyIn "termination" claim_type || pyIn "fired" claim_type then
          "wrongful_termination"
        else if pyIn "wage" claim_type || pyIn "pay" claim_type then "wage_dispute"
        else "unknown")
    else ("unknown", "unknown")
  let complexity :=
    if pyTruthy r.facts then
      let word_count := pyWordCount r.facts
      if word_count > 500 then "complex"
      else if word_count > 1000 then "novel"
      else "standard"
    else "standard"
  { primary_type := pt_sub.1, subtype := pt_sub.2, complexity := complexity }

/-- The `avg_duration` entry of `self.case_type_data` with the
`type_data.get("avg_duration", 18)` default of line 258. -/
def case_type_avg_duration (primary_type : String) : ℚ :=
  if primary_type = "personal_injury" then 18
  else if primary_type = "contract_dispute" then 14
  else if primary_type = "employment" then 22
  else 18

/-! ## Date parsing (`extract_temporal_features`, lines 230-276)

`datetime.strptime` and `datetime.now()` are Python library calls; they are
modelled at day granularity: a parsed date becomes its civil day number and
the clock becomes an explicit `today` day-number argument. -/

/-- Leap year test of the Gregorian calendar. -/
def isLeapYear (y : ℤ) : Bool := (y % 4 == 0 && y % 100 != 0) || y % 400 == 0

/-- Number of days in a month. -/
def daysInMonth (y : ℤ) (m : ℕ) : ℕ :=
  if m = 2 then (if isLeapYear y then 29 else 28)
  else if m = 4 ∨ m = 6 ∨ m = 9 ∨ m = 11 then 30
  else 31

/-- Day number of a civil date counted from 1970-01-01 (the standard
`days_from_civil` computation). -/
def daysFromCivil (y : ℤ) (m d : ℕ) : ℤ :=
  let yAdj : ℤ := if m ≤ 2 then y - 1 else y
  let era : ℤ := (if 0 ≤ yAdj then yAdj else yAdj - 399) / 400
  let yoe : ℤ := yAdj - era * 400
  let mp : ℕ := (m + 9) % 12
  let doy : ℤ := ((153 * mp + 2) / 5 : ℕ) + (d : ℤ) - 1
  let doe : ℤ := yoe * 365 + yoe / 4 - yoe / 100 + doy
  era * 146097 + doe - 719468

/-- Split a character list at every occurrence of a separator. -/
def splitOnCharAux (sep : Char) : List Char → List Char → List (List Char)
  | [], acc => [acc.reverse]
  | c :: cs, acc =>
    if c == sep then acc.reverse :: splitOnCharAux sep cs []
    else splitOnCharAux sep cs (c :: acc)

/-- Split a character list on a separator character (Python `s.split(sep)`). -/
def splitOnChar (sep : Char) (l : List Char) : List (List Char) :=
  splitOnCharAux sep l []

/-- Whether a non-empty list is all decimal digits. -/
def allDigits (l : List Char) : Bool := l.all (fun c => c.isDigit) && !l.isEmpty

/-- Value of a digit string. -/
def digitsToNat (l : List Char) : ℕ := l.foldl (fun a c => a * 10 + (c.toNat - 48)) 0

/-- A `%Y` field: one to four digits. -/
def parseYearField (l : List Char) : Option ℕ :=
  if allDigits l && l.length ≤ 4 then some (digitsToNat l) else none

/-- A `%m` or `%d` field: one or two digits. -/
def parseTwoField (l : List Char) : Option ℕ :=
  if allDigits l && l.length ≤ 2 then some (digitsToNat l) else none

/-- Range-check a parsed civil date as `strptime` does. -/
def validDate (y : ℤ) (m d : ℕ) : Bool :=
  1 ≤ m && m ≤ 12 && 1 ≤ d && d ≤ daysInMonth y m

/-- Day number of a checked civil date. -/
def checkedDate (y m d : ℕ) : Option ℤ :=
  if validDate (y : ℤ) m d then some (daysFromCivil (y : ℤ) m d) else none

/-- Parse with format `"%Y-%m-%d"`. -/
def parseDateYMD (s : String) : Option ℤ :=
  match splitOnChar '-' s.data with
  | [ys, ms, ds] =>
    (parseYearField ys).bind fun y =>
      (parseTwoField ms).bind fun m =>
        (parseTwoField ds).bind fun d => checkedDate y m d
  | _ => none

/-- Parse with format `"%m/%d/%Y"`. -/
def parseDateMDY (s : String) : Option ℤ :=
  match splitOnChar '/' s.data with
  | [ms, ds, ys] =>
    (parseTwoField ms).bind fun m =>
      (parseTwoField ds).bind fun d =>
        (parseYearField ys).bind fun y => checkedDate y m d
  | _ => none

/-- Parse with format `"%d-%m-%Y"`. -/
def parseDateDMY (s : String) : Option ℤ :=
  match splitOnChar '-' s.data with
  | [ds, ms, ys] =>
    (parseTwoField ds).bind fun d =>
      (parseTwoField ms).bind fun m =>
        (parseYearField ys).bind fun y => checkedDate y m d
  | _ => none

/-- Month number of an English month name (`%B`, matched case-insensitively
as `strptime` does). -/
def monthFromName (l : List Char) : Option ℕ :=
  let n := lowerStr ⟨l⟩
  if n = "january" then some 1 else if n = "february" then some 2
  else if n = "march" then some 3 else if n = "april" then some 4
  else if n = "may" then some 5 else if n = "june" then some 6
  else if n = "july" then some 7 else if n = "august" then some 8
  else if n = "september" then some 9 else if n = "october" then some 10
  else if n = "november" then some 11 else if n = "december" then some 12
  else none

/-- Parse with format `"%B %d, %Y"` (for example "September 5, 2020"). -/
def parseDateMonthName (s : String) : Option ℤ :=
  match splitOnChar ' ' s.data with
  | [mn, dc, ys] =>
    match dc.reverse with
    | ',' :: dr =>
      (monthFromName mn).bind fun m =>
        (parseTwoField dr.reverse).bind fun d =>
          (parseYearField ys).bind fun y => checkedDate y m d
    | _ => none
  | _ => none

/-- The format loop of lines 243-250: try `"%Y-%m-%d"`, `"%m/%d/%Y"`,
`"%d-%m-%Y"`, `"%B %d, %Y"` in order; the first success breaks the loop. -/
def parse_date_filed (s : String) : Option ℤ :=
  match parseDateYMD s with
  | some v => some v
  | none =>
    match parseDateMDY s with
    | some v => some v
    | none =>
      match parseDateDMY s with
      | some v => some v
      | none => parseDateMonthName s

/-! ## Temporal features (`extract_temporal_features`, lines 230-276) -/

/-- Output of `extract_temporal_features`. -/
structure TemporalFeatures where
  days_since_filing : Option ℤ
  time_to_trial_estimate : Option ℚ
  statute_of_limitations_risk : String
  deriving DecidableEq, Repr

/-- Embedding of `extract_temporal_features`; `today` is the explicit
day-number reading of `datetime.now()`. -/
def extract_temporal_features (r : CaseRecord) (today : ℤ) : TemporalFeatures :=
  let days_since_filing : Option ℤ :=
    if pyTruthy r.date_filed then
      (parse_date_filed r.date_filed).map (fun filed => today - filed)
    else none
  let primary_type := (extract_case_type_features r).primary_type
  let avg_duration := case_type_avg_duration primary_type
  let time_to_trial : Option ℚ :=
    match days_since_filing with
    | some ds => some (pyMax 0 (avg_duration - (ds : ℚ) / (761/25)))
    | none => none
  let sol_risk : String :=
    if primary_type = "personal_injury" then
      match days_since_filing with
      | some ds =>
        let years_since_filing : ℚ := (ds : ℚ) / (1461/4)
        if years_since_filing > (5/2) then "high"
        else if years_since_filing > (3/2) then "medium"
        else "low"
      | none => "unknown"
    else "unknown"
  { days_since_filing := days_since_filing,
    time_to_trial_estimate := time_to_trial,
    statute_of_limitations_risk := sol_risk }

/-! ## Damage features (`extract_damage_features` and
`_calculate_injury_severity`, lines 278-390) -/

/-- The `self.injury_severity` table (lines 62-71) in dictionary order,
keeping the `min` and `max` entries. -/
def injury_severity_table : List (String × ℚ × ℚ) :=
  [("whiplash", 2, 6), ("fracture", 4, 8), ("concussion", 3, 7),
   ("soft_tissue", 1, 5), ("spinal", 6, 10), ("traumatic_brain_injury", 7, 10),
   ("amputation", 8, 10), ("psychological", 3, 9)]

/-- The `severity_indicators` table of lines 356-373 in dictionary order. -/
def severity_indicators : List (String × ℚ) :=
  [("severe", 3), ("significant", (5/2)), ("serious", (5/2)), ("moderate", (3/2)),
   ("mild", (1/2)), ("minor", (1/2)), ("permanent", 3), ("temporary", 1),
   ("chronic", 2), ("acute", (3/2)), ("surgery", (5/2)), ("hospitalization", 2),
   ("therapy", 1), ("pain", 1), ("disability", (5/2)), ("impairment", 2)]

/-- Embedding of `_calculate_injury_severity` (lines 330-390): each listed
injury contributes the midpoint of the first matching table row (`break`
after the first hit); with no hits the indicator words of the details text
are averaged and doubled, defaulting to 3. -/
def calculate_injury_severity (injury_types : List String) (injury_details : String) : ℚ :=
  let hits : List ℚ := injury_types.filterMap fun injury =>
    (injury_severity_table.find? (fun e => pyIn e.1 (lowerStr injury))).map
      (fun e => (e.2.1 + e.2.2) / 2)
  let count := hits.length
  let severity_score :=
    if count = 0 then
      let present := severity_indicators.filter fun p => pyIn p.1 (lowerStr injury_details)
      let detail_count := present.length
      if 0 < detail_count then
        pyMin 10 ((present.foldl (fun a p => a + p.2) 0) / (detail_count : ℚ) * 2)
      else 3
    else (hits.foldl (fun a v => a + v) 0) / (count : ℚ)
  pyMin 10 severity_score

/-- Output of `extract_damage_features`. -/
structure DamageFeatures where
  economic_damages : ℚ
  estimated_non_economic_damages : ℚ
  total_estimated_damages : ℚ
  damage_multiplier : ℚ
  deriving DecidableEq, Repr

/-- Embedding of `extract_damage_features` (lines 278-328). -/
def extract_damage_features (r : CaseRecord) : DamageFeatures :=
  let economic_damages := r.damages
  let primary_type := (extract_case_type_features r).primary_type
  let md : ℚ × ℚ :=
    if primary_type = "personal_injury" then
      let severity_score := calculate_injury_severity r.injury_types r.injury_details
      let multiplier : ℚ :=
        if severity_score > 7 then 4
        else if severity_score > 5 then 3
        else if severity_score > 3 then 2
        else (3/2)
      (multiplier, economic_damages * multiplier)
    else if primary_type = "contract_dispute" then ((1/4), economic_damages * (1/4))
    else if primary_type = "employment" then (1, economic_damages * 1)
    else (1, 0)
  { economic_damages := economic_damages,
    estimated_non_economic_damages := md.2,
    total_estimated_damages := economic_damages + md.2,
    damage_multiplier := md.1 }

/-! ## Party-specific features (lines 392-586) -/

/-- Output of `extract_plaintiff_features`. -/
structure PlaintiffFeatures where
  plaintiff_type : String
  sympathetic_factors : ℚ
  credibility_factors : ℚ
  deriving DecidableEq, Repr

/-- Embedding of `extract_plaintiff_features` (lines 418-464). -/
def extract_plaintiff_features (r : CaseRecord) : PlaintiffFeatures :=
  let facts := lowerStr r.facts
  let injury_details := lowerStr r.injury_details
  let ptype :=
    if pyIn "company" facts || pyIn "corporation" facts || pyIn "business" facts then "business"
    else if pyIn "government" facts || pyIn "agency" facts || pyIn "department" facts then
      "government"
    else "individual"
  let sympathetic_indicators : List String :=
    ["child", "elderly", "pregnant", "disability", "veteran",
     "pre-existing", "family", "emotional", "trauma", "victim"]
  let sympathetic_score : ℚ :=
    ((sympathetic_indicators.countP fun i => pyIn i facts || pyIn i injury_details) : ℚ)
  let credibility_positive : List String :=
    ["consistent", "documented", "evidence", "witness", "record"]
  let credibility_negative : List String :=
    ["inconsistent", "contradiction", "prior claim", "criminal", "misleading"]
  let credibility_score : ℚ := (1/2)
    + ((credibility_positive.countP fun i => pyIn i facts) : ℚ) * (1/10)
    - ((credibility_negative.countP fun i => pyIn i facts) : ℚ) * (1/10)
  { plaintiff_type := ptype,
    sympathetic_factors := pyMin 1 (sympathetic_score / 5),
    credibility_factors := pyMax 0 (pyMin 1 credibility_score) }

/-- Output of `extract_defendant_features`. -/
structure DefendantFeatures where
  defendant_type : String
  insurance_involved : Bool
  deep_pockets : ℚ
  public_relations_risk : ℚ
  deriving DecidableEq, Repr

/-- Embedding of `extract_defendant_features` (lines 466-509). -/
def extract_defendant_features (r : CaseRecord) : DefendantFeatures :=
  let facts := lowerStr r.facts
  let insurance_involved := pyTruthy r.insurance_company
  if pyIn "company" facts || pyIn "corporation" facts || pyIn "business" facts then
    let deep_pockets : ℚ :=
      if pyIn "large" facts || pyIn "corporation" facts || pyIn "multinational" facts then (4/5)
      else if pyIn "medium" facts || pyIn "regional" facts then (1/2)
      else (3/10)
    let pr_indicators : List String :=
      ["public", "reputation", "media", "news", "press", "scandal", "attention"]
    let pr_score : ℚ := ((pr_indicators.countP fun i => pyIn i facts) : ℚ)
    { defendant_type := "business", insurance_involved := insurance_involved,
      deep_pockets := deep_pockets, public_relations_risk := pyMin 1 (pr_score / 3) }
  else if pyIn "government" facts || pyIn "agency" facts || pyIn "department" facts then
    { defendant_type := "government", insurance_involved := insurance_involved,
      deep_pockets := (7/10), public_relations_risk := (3/5) }
  else
    { defendant_type := "individual", insurance_involved := insurance_involved,
      deep_pockets := 0, public_relations_risk := 0 }

/-- Output of `extract_attorney_features`. -/
structure AttorneyFeatures where
  plaintiff_representation_strength : ℚ
  defendant_representation_strength : ℚ
  representation_asymmetry : ℚ
  deriving DecidableEq, Repr

/-- Embedding of `extract_attorney_features` (lines 511-537). -/
def extract_attorney_features (r : CaseRecord) : AttorneyFeatures :=
  let ps : ℚ := (1/2) +
    (if pyTruthy r.plaintiff_medical_expert || pyTruthy r.plaintiff_non_medical_expert
     then (1/5) else 0)
  let ds : ℚ := (1/2) +
    (if pyTruthy r.defendant_medical_expert || pyTruthy r.defendant_non_medical_expert
     then (1/5) else 0)
  { plaintiff_representation_strength := ps,
    defendant_representation_strength := ds,
    representation_asymmetry := ps - ds }

/-- Output of `extract_relationship_features`. -/
structure RelationshipFeatures where
  relationship_type : String
  ongoing_relationship : Bool
  power_dynamic : ℚ
  deriving DecidableEq, Repr

/-- The `relationship_indicators` table of lines 551-556 in dictionary order. -/
def relationship_indicators : List (String × List String) :=
  [("contractual", ["contract", "agreement", "business relationship", "client", "customer"]),
   ("employment", ["employee", "employer", "workplace", "job", "work"]),
   ("professional", ["doctor", "patient", "lawyer", "client", "professional"]),
   ("personal", ["family", "friend", "neighbor", "personal", "relative"])]

/-- Embedding of `extract_relationship_features` (lines 539-586); the nested
loop takes the first relationship type any of whose indicators occurs. -/
def extract_relationship_features (r : CaseRecord) : RelationshipFeatures :=
  let facts := lowerStr r.facts
  let relationship_type :=
    match relationship_indicators.find? (fun p => p.2.any fun i => pyIn i facts) with
    | some p => p.1
    | none => "none"
  let ongoing_indicators : List String := ["ongoing", "current", "continuing", "still", "remains"]
  let ongoing := ongoing_indicators.any fun i => pyIn i facts
  let base_power : ℚ :=
    if relationship_type = "employment" then -(1/2)
    else if relationship_type = "professional" then -(3/10)
    else 0
  let defendant := extract_defendant_features r
  let power_dynamic :=
    if defendant.defendant_type = "business" ∧ relationship_type ≠ "employment" then
      base_power - (1/5)
    else if defendant.defendant_type = "government" then base_power - (2/5)
    else base_power
  { relationship_type := relationship_type, ongoing_relationship := ongoing,
    power_dynamic := power_dynamic }

/-! ## Evidence-based features (lines 588-783) -/

/-- Output of `extract_evidence_strength`; the `key_evidence_types` and
`evidence_gaps` lists are kept as counts where only their lengths matter. -/
structure EvidenceStrengthFeatures where
  overall_strength : ℚ
  key_evidence_types : List String
  evidence_gaps : List String
  deriving DecidableEq, Repr

/-- The `evidence_types` table of lines 626-632 in dictionary order. -/
def evidence_types_table : List (String × List String) :=
  [("documentary", ["document", "record", "report", "file", "written"]),
   ("testimonial", ["witness", "testimony", "statement", "interview"]),
   ("physical", ["physical", "object", "item", "exhibit"]),
   ("digital", ["video", "recording", "email", "message", "digital", "electronic"]),
   ("expert", ["expert", "specialist", "professional opinion"])]

/-- The `gap_indicators` table of lines 652-657 in dictionary order. -/
def gap_indicators_table : List (String × List String) :=
  [("no_witnesses", ["no witness", "lack of witness", "without witness"]),
   ("no_documentation", ["no document", "lack of document", "without document"]),
   ("no_physical_evidence", ["no physical", "lack of physical", "without physical"]),
   ("conflicting_evidence", ["conflict", "contradict", "inconsistent"])]

/-- Embedding of `extract_evidence_strength` (lines 614-669). -/
def extract_evidence_strength (r : CaseRecord) : EvidenceStrengthFeatures :=
  let facts := lowerStr r.facts
  let evidence_counts : List (String × ℕ) :=
    evidence_types_table.filterMap fun p =>
      let count := p.2.countP fun i => pyIn i facts
      if 0 < count then some (p.1, count) else none
  let key_evidence_types := evidence_counts.map Prod.fst
  let base_strength : ℚ :=
    if evidence_counts.isEmpty then (1/2)
    else
      let diversity_factor := pyMin 1 ((evidence_counts.length : ℚ) / 5)
      let quantity_factor :=
        pyMin 1 (((evidence_counts.foldl (fun a p => a + p.2) 0 : ℕ) : ℚ) / 10)
      (diversity_factor + quantity_factor) / 2
  let evidence_gaps : List String :=
    (gap_indicators_table.filter fun p => p.2.any fun i => pyIn i facts).map Prod.fst
  let strength := base_strength - (evidence_gaps.length : ℚ) * (1/10)
  { overall_strength := pyMax (1/10) (pyMin 1 strength),
    key_evidence_types := key_evidence_types, evidence_gaps := evidence_gaps }

/-- Output of `extract_expert_opinion_features`. -/
structure ExpertOpinionFeatures where
  plaintiff_expert_strength : ℚ
  defendant_expert_strength : ℚ
  expert_advantage : ℚ
  deriving DecidableEq, Repr

/-- Embedding of `extract_expert_opinion_features` (lines 671-700). -/
def extract_expert_opinion_features (r : CaseRecord) : ExpertOpinionFeatures :=
  let ps : ℚ := (if pyTruthy r.plaintiff_medical_expert then (2/5) else 0)
    + (if pyTruthy r.plaintiff_non_medical_expert then (3/10) else 0)
  let ds : ℚ := (if pyTruthy r.defendant_medical_expert then (2/5) else 0)
    + (if pyTruthy r.defendant_non_medical_expert then (3/10) else 0)
  { plaintiff_expert_strength := ps, defendant_expert_strength := ds,
    expert_advantage := ps - ds }

/-- Output of `extract_documentary_evidence`. -/
structure DocumentaryEvidenceFeatures where
  documentary_evidence_strength : ℚ
  key_document_types : List String
  deriving DecidableEq, Repr

/-- The `document_types` table of lines 713-719 in dictionary order. -/
def document_types_table : List (String × List String) :=
  [("medical_records", ["medical record", "health record", "hospital record", "doctor record"]),
   ("contracts", ["contract", "agreement", "terms", "signed document"]),
   ("correspondence", ["email", "letter", "message", "correspondence", "communication"]),
   ("financial_records", ["financial", "accounting", "bank", "transaction", "payment"]),
   ("official_reports", ["police report", "incident report", "official report", "investigation"])]

/-- Embedding of `extract_documentary_evidence` (lines 702-739). -/
def extract_documentary_evidence (r : CaseRecord) : DocumentaryEvidenceFeatures :=
  let facts := lowerStr r.facts
  let key_document_types :=
    (document_types_table.filter fun p => p.2.any fun i => pyIn i facts).map Prod.fst
  let smoking_gun_indicators : List String :=
    ["smoking gun", "conclusive", "definitive", "undeniable", "admission"]
  let strength : ℚ := (1/2) + (key_document_types.length : ℚ) * (1/10)
    + (if smoking_gun_indicators.any (fun i => pyIn i facts) then (3/10) else 0)
  { documentary_evidence_strength := pyMax (1/10) (pyMin 1 strength),
    key_document_types := key_document_types }

/-- Output of `extract_witness_features`. -/
structure WitnessFeatures where
  witness_credibility : ℚ
  witness_types : List String
  deriving DecidableEq, Repr

/-- The `witness_types` table of lines 752-757 in dictionary order. -/
def witness_types_table : List (String × List String) :=
  [("eyewitness", ["eyewitness", "saw", "observed", "witnessed"]),
   ("character_witness", ["character", "reputation", "vouched"]),
   ("expert_witness", ["expert witness", "expert testimony", "professional opinion"]),
   ("fact_witness", ["fact witness", "factual testimony"])]

/-- Embedding of `extract_witness_features` (lines 741-783). -/
def extract_witness_features (r : CaseRecord) : WitnessFeatures :=
  let facts := lowerStr r.facts
  let witness_types :=
    (witness_types_table.filter fun p => p.2.any fun i => pyIn i facts).map Prod.fst
  let type_bonus : ℚ :=
    ((witness_types.countP fun t => t == "eyewitness" || t == "expert_witness") : ℚ) * (1/10)
  let credibility_positive : List String :=
    ["consistent", "reliable", "credible", "trustworthy", "unbiased"]
  let credibility_negative : List String :=
    ["inconsistent", "unreliable", "biased", "contradictory", "impeached"]
  let credibility : ℚ := (1/2) + type_bonus
    + ((credibility_positive.countP fun i => pyIn i facts) : ℚ) * (1/10)
    - ((credibility_negative.countP fun i => pyIn i facts) : ℚ) * (1/10)
  { witness_credibility := pyMax (1/10) (pyMin 1 credibility),
    witness_types := witness_types }

/-! ## Procedural and strategic features (lines 785-976) -/

/-- Output of `extract_procedural_posture`. -/
structure ProceduralPostureFeatures where
  stage : String
  trial_readiness : ℚ
  procedural_advantage : ℚ
  deriving DecidableEq, Repr

/-- Embedding of `extract_procedural_posture` (lines 811-858). -/
def extract_procedural_posture (r : CaseRecord) : ProceduralPostureFeatures :=
  if pyTruthy r.date_filed then
    let facts := lowerStr r.facts
    let sr : String × ℚ :=
      if pyIn "discovery" facts then ("discovery", (3/10))
      else if pyIn "deposition" facts then ("discovery", (2/5))
      else if pyIn "motion" facts ∧ pyIn "summary judgment" facts then
        ("dispositive_motions", (3/5))
      else if pyIn "pretrial" facts then ("pretrial", (4/5))
      else if pyIn "trial" facts then ("trial", 1)
      else ("post_filing", 0)
    let discovery_adv : ℚ :=
      if sr.1 = "discovery" then
        (if pyIn "plaintiff favorable" facts || pyIn "defendant unfavorable" facts
         then (1/5) else 0)
        + (if pyIn "plaintiff unfavorable" facts || pyIn "defendant favorable" facts
           then -(1/5) else 0)
      else 0
    let motion_adv : ℚ :=
      if sr.1 = "dispositive_motions" then
        (if pyIn "motion denied" facts ∧ pyIn "defendant" facts then (3/10) else 0)
        + (if pyIn "motion granted" facts ∧ pyIn "defendant" facts then -(3/10) else 0)
      else 0
    { stage := sr.1, trial_readiness := sr.2,
      procedural_advantage := discovery_adv + motion_adv }
  else { stage := "pre_filing", trial_readiness := 0, procedural_advantage := 0 }

/-- Output of `extract_adr_features`. -/
structure AdrFeatures where
  adr_suitability : ℚ
  mediation_attempted : Bool
  arbitration_clause : Bool
  deriving DecidableEq, Repr

/-- Embedding of `extract_adr_features` (lines 939-976). -/
def extract_adr_features (r : CaseRecord) : AdrFeatures :=
  let facts := lowerStr r.facts
  let mediation_attempted := pyIn "mediation" facts
  let arbitration_clause :=
    pyIn "arbitration clause" facts || pyIn "arbitration agreement" facts
  let base : ℚ := if arbitration_clause then (9/10) else (1/2)
  let primary_type := (extract_case_type_features r).primary_type
  let with_type := base +
    (if primary_type = "contract_dispute" then (1/5)
     else if primary_type = "employment" then (1/10) else 0)
  let with_rel := with_type +
    (if (extract_relationship_features r).ongoing_relationship then (1/5) else 0)
  { adr_suitability := pyMax (1/10) (pyMin 1 with_rel),
    mediation_attempted := mediation_attempted,
    arbitration_clause := arbitration_clause }

/-! ## Composite features (lines 978-1178)

Within `extract_all_features` the composites run on the dictionary produced
by the earlier extractors, so every key they probe is present; the `try`
bodies contain no failing operation over these well-formed inputs. -/

/-- Output of `create_settlement_pressure_index`. -/
structure SettlementPressureIndex where
  overall_index : ℚ
  time_pressure : ℚ
  financial_pressure : ℚ
  reputation_pressure : ℚ
  precedent_pressure : ℚ
  deriving DecidableEq, Repr

/-- The `time_pressure` accumulator of lines 1010-1029. -/
def spi_time_pressure (r : CaseRecord) (today : ℤ) : ℚ :=
  let temporal := extract_temporal_features r today
  5
    + (match temporal.time_to_trial_estimate with
       | some t => if t < 1 then 3 else if t < 3 then 2 else if t < 6 then 1 else 0
       | none => 0)
    + (if temporal.statute_of_limitations_risk = "high" then 3
       else if temporal.statute_of_limitations_risk = "medium" then (3/2) else 0)

/-- The `financial_pressure` accumulator of lines 1033-1058. -/
def spi_financial_pressure (r : CaseRecord) : ℚ :=
  let damages := extract_damage_features r
  let defendant := extract_defendant_features r
  5
    + (if damages.total_estimated_damages > 1000000 then 3
       else if damages.total_estimated_damages > 500000 then 2
       else if damages.total_estimated_damages > 100000 then 1 else 0)
    - (if defendant.insurance_involved then 1 else 0)
    - (if defendant.deep_pockets > (7/10) then 1 else 0)

/-- The `reputation_pressure` accumulator of lines 1062-1071. -/
def spi_reputation_pressure (r : CaseRecord) : ℚ :=
  5 + (extract_defendant_features r).public_relations_risk * 5

/-- The `precedent_pressure` accumulator of lines 1075-1086. -/
def spi_precedent_pressure (r : CaseRecord) : ℚ :=
  let complexity := (extract_case_type_features r).complexity
  5 + (if complexity = "novel" then 3 else if complexity = "complex" then (3/2) else 0)

/-- Embedding of `create_settlement_pressure_index` (lines 1002-1107);
`today` feeds the temporal features it reads. -/
def create_settlement_pressure_index (r : CaseRecord) (today : ℤ) : SettlementPressureIndex :=
  let tp := pyMin 10 (spi_time_pressure r today) / 10
  let fp := pyMin 10 (spi_financial_pressure r) / 10
  let rp := pyMin 10 (spi_reputation_pressure r) / 10
  let pp := pyMin 10 (spi_precedent_pressure r) / 10
  let pressure_index := (tp * 3 + fp * 3 + rp * 2 + pp * 2) / 10 * 10
  { overall_index := pyMin 10 pressure_index,
    time_pressure := tp, financial_pressure := fp,
    reputation_pressure := rp, precedent_pressure := pp }

/-- Output of `create_case_strength_ratio`; `strength_quotient` is the
source's `strength_ratio` value. -/
structure CaseStrengthFeatures where
  plaintiff_strength : ℚ
  defendant_strength : ℚ
  strength_quotient : ℚ
  deriving DecidableEq, Repr

/-- Embedding of `create_case_strength_ratio` (lines 1109-1178). -/
def create_case_strength_ratio (r : CaseRecord) : CaseStrengthFeatures :=
  let evidence_strength := (extract_evidence_strength r).overall_strength
  let expert_advantage := (extract_expert_opinion_features r).expert_advantage
  let witness_credibility := (extract_witness_features r).witness_credibility
  let procedural_advantage := (extract_procedural_posture r).procedural_advantage
  let representation_asymmetry := (extract_attorney_features r).representation_asymmetry
  let deltas : ℚ := (evidence_strength - (1/2)) * 6 + expert_advantage * 4
    + (witness_credibility - (1/2)) * 4 + procedural_advantage * 3
    + representation_asymmetry * 2
  let plaintiff_strength := pyMax 1 (pyMin 10 (5 + deltas))
  let defendant_strength := pyMax 1 (pyMin 10 (5 - deltas))
  { plaintiff_strength := plaintiff_strength,
    defendant_strength := defendant_strength,
    strength_quotient :=
      if defendant_strength > 0 then plaintiff_strength / defendant_strength else 10 }

/-! ## Similarity-based confidence (`confidence_scoring.py`, lines 744-911) -/

/-- A well-typed Python value sitting in a `Dict[str, Any]` slot. -/
inductive PyVal where
  | pyNum (q : ℚ)
  | pyStr (s : String)
  | pyNone
  deriving DecidableEq, Repr

/-- Model of the Python builtin `float()` applied to a string: a decimal
literal (optional sign, digits, optional fractional part); `none` models a
raised `ValueError`. -/
def floatOfChars (l : List Char) : Option ℚ :=
  let unsigned : List Char → Option ℚ := fun cs =>
    match splitOnChar '.' cs with
    | [ip] => if allDigits ip then some ((digitsToNat ip : ℚ)) else none
    | [ip, fp] =>
      if (allDigits ip || ip.isEmpty) && (allDigits fp || fp.isEmpty)
          && !(ip.isEmpty && fp.isEmpty) then
        some ((digitsToNat ip : ℚ) + (digitsToNat fp : ℚ) / ((10 : ℚ) ^ fp.length))
      else none
    | _ => none
  match l with
  | '+' :: rest => unsigned rest
  | '-' :: rest => (unsigned rest).map Neg.neg
  | rest => unsigned rest

/-- Model of `float(s)` on a string value. -/
def floatOfString (s : String) : Option ℚ := floatOfChars s.data

/-- Model of `float(v)` on an arbitrary well-typed value; `none` models a
raised `ValueError` or `TypeError`. -/
def pyFloat : PyVal → Option ℚ
  | .pyNum q => some q
  | .pyStr s => floatOfString s
  | .pyNone => none

/-- The three monetary metadata keys probed at lines 897-908. -/
structure MetadataSlots where
  settlement_value : Option PyVal
  verdict_amount : Option PyVal
  judgment_amount : Option PyVal
  deriving DecidableEq, Repr

/-- A similar-case dictionary as consumed by
`calculate_similarity_based_confidence`: `similarity` is read through
`case.get("similarity", 0)`; the remaining slots are optional.
`description_matches` models the list of currency-amount strings
`re.findall` returns on the case's description (the regular-expression
engine is Python library code; `none` models an absent `description` key,
`some []` a description without a match — every later pattern of the
pattern list requires a dollar sign, so a single match list suffices). -/
structure SimilarCase where
  similarity : ℚ
  settlement_value : Option PyVal
  description_matches : Option (List String)
  metadata : Option MetadataSlots
  deriving DecidableEq, Repr

/-- Python `min` over a non-empty list (first minimum wins ties); the `[]`
case is unreachable at every call site. -/
def pyListMin : List ℚ → ℚ
  | [] => 0
  | v :: vs => vs.foldl pyMin v

/-- Python `max` over a non-empty list. -/
def pyListMax : List ℚ → ℚ
  | [] => 0
  | v :: vs => vs.foldl pyMax v

/-- Embedding of `_extract_settlement_value_from_case` (lines 852-911):
`Except.error` models an exception escaping (the bare `float(...)` calls on
lines 864 and 901-908 are unguarded), while the per-match conversion of
lines 888-892 sits inside `try/except ValueError` and only skips. -/
def extract_settlement_value_from_case (c : SimilarCase) : Except Unit (Option ℚ) :=
  match c.settlement_value with
  | some v =>
    match pyFloat v with
    | some q => .ok (some q)
    | none => .error ()
  | none =>
    let from_description : Option ℚ :=
      match c.description_matches with
      | some ms =>
        let values := ms.filterMap fun m =>
          floatOfString ⟨m.data.filter (fun ch => !(ch == ','))⟩
        match values with
        | [] => none
        | _ :: _ => some (pyListMax values)
      | none => none
    match from_description with
    | some q => .ok (some q)
    | none =>
      match c.metadata with
      | some md =>
        match md.settlement_value with
        | some v =>
          match pyFloat v with
          | some q => .ok (some q)
          | none => .error ()
        | none =>
          match md.verdict_amount with
          | some v =>
            match pyFloat v with
            | some q => .ok (some q)
            | none => .error ()
          | none =>
            match md.judgment_amount with
            | some v =>
              match pyFloat v with
              | some q => .ok (some q)
              | none => .error ()
            | none => .ok none
      | none => .ok none

/-- Result fields of `calculate_similarity_based_confidence` (the
explanation text is produced by pure string formatting and is omitted). -/
structure SimilarityConfidence where
  similarity_confidence_score : ℝ
  case_count_factor : ℚ
  similarity_factor : ℚ
  value_consistency_factor : ℝ
  similar_case_count : ℕ
  average_similarity : ℚ
  settlement_value_range : Option (ℚ × ℚ × ℚ)

/-- Embedding of `calculate_similarity_based_confidence` (lines 744-850).
The extraction loop propagates the first exception; the coefficient of
variation uses `math.sqrt`, hence the real-valued consistency factor. -/
noncomputable def calculate_similarity_based_confidence
    (similar_cases : List SimilarCase) (point_estimate : ℚ) :
    Except Unit SimilarityConfidence :=
  if similar_cases.isEmpty then
    .ok { similarity_confidence_score := (3/10), case_count_factor := 0,
          similarity_factor := 0, value_consistency_factor := 0,
          similar_case_count := 0, average_similarity := 0,
          settlement_value_range := none }
  else
    match similar_cases.mapM
        (fun c => (extract_settlement_value_from_case c).map
          (fun v => (c.similarity, v))) with
    | .error e => .error e
    | .ok pairs =>
      let similarities := pairs.map Prod.fst
      let settlement_values := pairs.filterMap Prod.snd
      let case_count := similar_cases.length
      let case_count_factor := pyMin 1 ((case_count : ℚ) / 5)
      let avg_similarity : ℚ :=
        if similarities.isEmpty then 0
        else similarities.sum / (similarities.length : ℚ)
      let value_consistency_factor : ℝ :=
        if 2 ≤ settlement_values.length then
          let mean_value : ℚ := settlement_values.sum / (settlement_values.length : ℚ)
          let base : ℝ :=
            if 0 < mean_value then
              let variance : ℝ :=
                ((settlement_values.map fun x => ((x : ℝ) - (mean_value : ℝ)) ^ 2).sum)
                  / (settlement_values.length : ℝ)
              let cv : ℝ := Real.sqrt variance / (mean_value : ℝ)
              max 0 (min 1 (1 - cv))
            else (1/2)
          let min_value := pyListMin settlement_values
          let max_value := pyListMax settlement_values
          if point_estimate < min_value * (1/2) ∨ max_value * (3/2) < point_estimate then
            base * (1/2)
          else if min_value ≤ point_estimate ∧ point_estimate ≤ max_value then
            base * (6/5)
          else base
        else (1/2)
      let score : ℝ := (case_count_factor : ℝ) * (3/10) + (avg_similarity : ℝ) * (2/5)
        + value_consistency_factor * (3/10)
      .ok { similarity_confidence_score := max (1/10) (min 1 score),
            case_count_factor := case_count_factor,
            similarity_factor := avg_similarity,
            value_consistency_factor := value_consistency_factor,
            similar_case_count := case_count,
            average_similarity := avg_similarity,
            settlement_value_range :=
              if settlement_values.isEmpty then none
              else some (pyListMin settlement_values, pyListMax settlement_values,
                settlement_values.sum / (settlement_values.length : ℚ)) }

/-! ## Statistical confidence intervals (`confidence_scoring.py`, lines 447-643) -/

/-- The slice of `extracted_features` read by
`calculate_statistical_confidence_intervals` and
`_estimate_prediction_variance`. A `none` models the probed dictionary path
being absent; `evidence_overall_strength` and `stage` fold the inner
`.get(..., default)` into the option. -/
structure StatFeatures where
  complexity : Option String
  evidence_overall_strength : Option ℚ
  stage : Option String
  damage_range_width : Option String
  deriving DecidableEq, Repr

/-- A `StatFeatures` with every probed path absent. -/
def noStatFeatures : StatFeatures := ⟨none, none, none, none⟩

/-- The `stage_factors` table of lines 610-617. -/
def stage_factor_table (stage : String) : Option ℚ :=
  if stage = "pre_filing" then some (13/10)
  else if stage = "post_filing" then some (6/5)
  else if stage = "discovery" then some (11/10)
  else if stage = "dispositive_motions" then some (9/10)
  else if stage = "pretrial" then some (4/5)
  else if stage = "trial" then some (7/10)
  else none

/-- The `range_factors` table of lines 627-631. -/
def damage_range_factor_table (width : String) : Option ℚ :=
  if width = "wide" then some (13/10)
  else if width = "medium" then some 1
  else if width = "narrow" then some (7/10)
  else none

/-- The adjusted coefficient of variation computed by
`_estimate_prediction_variance` (lines 580-637): base CV from the overall
confidence score, multiplicative complexity, evidence, stage and
damage-range adjustments, clamped to `[0.1, 2.0]`. -/
def estimate_adjusted_cv (overall_confidence_score : ℚ) (f : StatFeatures) : ℚ :=
  let base_cv : ℚ := 1 - overall_confidence_score / 10
  let cv1 :=
    match f.complexity with
    | some c => if c = "novel" then base_cv * (3/2)
                else if c = "complex" then base_cv * (6/5) else base_cv
    | none => base_cv
  let cv2 :=
    match f.evidence_overall_strength with
    | some s => cv1 * ((3/2) - s)
    | none => cv1
  let cv3 :=
    match f.stage with
    | some st => match stage_factor_table st with
      | some sf => cv2 * sf
      | none => cv2
    | none => cv2
  let cv4 :=
    match f.damage_range_width with
    | some w => match damage_range_factor_table w with
      | some wf => cv3 * wf
      | none => cv3
    | none => cv3
  pyMax (1/10) (pyMin 2 cv4)

/-- Embedding of `_estimate_prediction_variance` (line 641):
`variance = (adjusted_cv * point_estimate) ** 2`. -/
def estimate_prediction_variance (point_estimate overall_confidence_score : ℚ)
    (f : StatFeatures) : ℚ :=
  (estimate_adjusted_cv overall_confidence_score f * point_estimate) ^ 2

/-- The six standard-normal quantiles `scipy.stats.norm.ppf` is called at
(lines 516-552), as abstract values carrying the true ordering and sign
facts of the quantile function. -/
structure NormPpf where
  z05 : ℚ
  z10 : ℚ
  z25 : ℚ
  z75 : ℚ
  z90 : ℚ
  z95 : ℚ
  h05_10 : z05 ≤ z10
  h10_25 : z10 ≤ z25
  h25_neg : z25 < 0
  h75_pos : 0 < z75
  h75_90 : z75 ≤ z90
  h90_95 : z90 ≤ z95

/-- The quantile values rounded to four decimal places, a valid `NormPpf`. -/
def stdNormPpf : NormPpf where
  z05 := -(16449/10000)
  z10 := -(12816/10000)
  z25 := -(6745/10000)
  z75 := (6745/10000)
  z90 := (12816/10000)
  z95 := (16449/10000)
  h05_10 := by norm_num
  h10_25 := by norm_num
  h25_neg := by norm_num
  h75_pos := by norm_num
  h75_90 := by norm_num
  h90_95 := by norm_num

/-- A lower/upper pair of one confidence interval. -/
structure ConfidenceInterval where
  lower : ℝ
  upper : ℝ

/-- The three intervals returned by
`calculate_statistical_confidence_intervals`. -/
structure ConfidenceIntervals where
  i90 : ConfidenceInterval
  i80 : ConfidenceInterval
  i50 : ConfidenceInterval

/-- Result of `calculate_statistical_confidence_intervals`:
`lognormal_params` is `distribution_params` as `(mu, sigma)` in the
log-normal case, `normal_params` is `(mean, std_dev)` in the fallback case. -/
structure StatisticalConfidence where
  point_estimate : ℚ
  distribution_type : String
  lognormal_params : Option (ℝ × ℝ)
  normal_params : Option (ℝ × ℝ)
  confidence_intervals : ConfidenceIntervals

/-- Embedding of `calculate_statistical_confidence_intervals`
(lines 447-564): the distribution starts as log-normal and falls back to a
zero-floored normal exactly when `point_estimate ≤ 0`. -/
noncomputable def calculate_statistical_confidence_intervals
    (point_estimate overall_confidence_score : ℚ) (f : StatFeatures)
    (zs : NormPpf) : StatisticalConfidence :=
  let variance := estimate_prediction_variance point_estimate overall_confidence_score f
  let std_dev : ℝ := Real.sqrt (variance : ℝ)
  if 0 < point_estimate then
    let cv := pyMax (1/10) (pyMin 1 (1 - overall_confidence_score / 10))
    let sigma : ℝ := Real.sqrt (Real.log (1 + (cv : ℝ) ^ 2))
    let mu : ℝ := Real.log (point_estimate : ℝ) - sigma ^ 2 / 2
    { point_estimate := point_estimate, distribution_type := "log-normal",
      lognormal_params := some (mu, sigma), normal_params := none,
      confidence_intervals :=
        { i90 := ⟨Real.exp (mu + (zs.z05 : ℝ) * sigma), Real.exp (mu + (zs.z95 : ℝ) * sigma)⟩,
          i80 := ⟨Real.exp (mu + (zs.z10 : ℝ) * sigma), Real.exp (mu + (zs.z90 : ℝ) * sigma)⟩,
          i50 := ⟨Real.exp (mu + (zs.z25 : ℝ) * sigma), Real.exp (mu + (zs.z75 : ℝ) * sigma)⟩ } }
  else
    let mean : ℝ := (point_estimate : ℝ)
    { point_estimate := point_estimate, distribution_type := "normal",
      lognormal_params := none, normal_params := some (mean, std_dev),
      confidence_intervals :=
        { i90 := ⟨max 0 (mean + (zs.z05 : ℝ) * std_dev), mean + (zs.z95 : ℝ) * std_dev⟩,
          i80 := ⟨max 0 (mean + (zs.z10 : ℝ) * std_dev), mean + (zs.z90 : ℝ) * std_dev⟩,
          i50 := ⟨max 0 (mean + (zs.z25 : ℝ) * std_dev), mean + (zs.z75 : ℝ) * std_dev⟩ } }

/-! ## Consensus confidence (`calculate_consensus_confidence`, lines 1003-1081) -/

/-- The fields of the consensus result a claim reads: the rescaled consensus
score and the `component_scores["statistical"]` entry; the classification
reapplies `classify_confidence` to the score. -/
structure ConsensusConfidence where
  consensus_confidence_score : ℝ
  statistical_component : ℝ

/-- Embedding of `calculate_consensus_confidence` (lines 1003-1081):
`multi_dim_overall` is `multi_dimensional_confidence["overall_confidence_score"]`,
`similarity_score` is `similarity_confidence["similarity_confidence_score"]`,
and `stat` the statistical result (whose interval dictionary always carries
the `"90%"` key, so only the `point_estimate > 0` test governs the width
computation). -/
noncomputable def calculate_consensus_confidence (multi_dim_overall : ℚ)
    (similarity_score : ℝ) (stat : StatisticalConfidence) : ConsensusConfidence :=
  let multi_dim_score : ℚ := multi_dim_overall / 10
  let interval_width_score : ℝ :=
    if 0 < stat.point_estimate then
      let width : ℝ := stat.confidence_intervals.i90.upper
        - stat.confidence_intervals.i90.lower
      max (1/10) (min 1 (1 / (1 + width / (stat.point_estimate : ℝ))))
    else (1/2)
  let consensus_score : ℝ := (multi_dim_score : ℝ) * (1/2)
    + interval_width_score * (3/10) + similarity_score * (1/5)
  { consensus_confidence_score := (max (1/10) (min 1 consensus_score)) * 10,
    statistical_component := interval_width_score * 10 }

/-! ## Re-ranking (`enhanced_rag_system.py`, lines 99-296) -/

/-- A candidate case as assembled from a Pinecone match (lines 126-135):
`id`, vector-similarity score, and the metadata slots the re-ranker probes
(absent key = `none`). The `original_similarity` and `feature_similarity`
fields start `none` and are written by the re-ranker. -/
structure CandidateCase where
  id : String
  similarity : ℚ
  original_similarity : Option ℚ
  feature_similarity : Option ℚ
  meta_case_type : Option String
  meta_jurisdiction : Option String
  meta_damages : Option ℚ
  meta_injury_types : Option (List String)
  deriving DecidableEq, Repr

/-- The per-case-type weight tables of `_get_feature_weights`
(lines 255-296). -/
structure FeatureWeights where
  case_type : ℚ
  jurisdiction : ℚ
  damages : ℚ
  injury_types : ℚ
  deriving DecidableEq, Repr

/-- Embedding of `_get_feature_weights`. -/
def get_feature_weights (case_type : String) : FeatureWeights :=
  if case_type = "personal_injury" then ⟨(1/4), (3/20), (3/10), (3/10)⟩
  else if case_type = "contract_dispute" then ⟨(3/10), (1/5), (2/5), (1/10)⟩
  else if case_type = "employment" then ⟨(3/10), (1/4), (1/4), (1/5)⟩
  else ⟨(3/10), (1/5), (3/10), (1/5)⟩

/-- The query-side feature values the re-ranker reads out of
`extracted_features` (all under `case_characteristics`, which the feature
extractor always writes). The source reads `damages.get("total_damages", 0)`
and `case_characteristics.get("injury_types", [])`, keys the extractor never
writes, so under the pipeline both take their defaults; they are kept as
fields to embed the function over its full input space. -/
structure QueryFeatures where
  primary_type : String
  jurisdiction : String
  total_damages : ℚ
  injury_types : List String
  deriving DecidableEq, Repr

/-- Jaccard pieces of lines 220-230 via deduplicated lists (Python sets). -/
def setOverlapCount (a b : List String) : ℕ :=
  (a.dedup.filter fun x => x ∈ b).length

/-- Size of the union of two lists viewed as sets. -/
def setUnionCount (a b : List String) : ℕ :=
  (a.dedup ++ b.dedup.filter fun x => ¬ (x ∈ a)).length

/-- The per-candidate rescoring body of `_rerank_cases_with_features`
(lines 171-248): accumulate present feature signals, normalize, and blend
with `alpha = 0.7`. -/
def rescore_candidate (w : FeatureWeights) (qf : QueryFeatures)
    (c : CandidateCase) : CandidateCase :=
  let ct : ℚ × ℚ :=
    match c.meta_case_type with
    | some cand_type =>
      ((if qf.primary_type = cand_type then w.case_type else 0), w.case_type)
    | none => (0, 0)
  let ju : ℚ × ℚ :=
    match c.meta_jurisdiction with
    | some cand_jur =>
      ((if qf.jurisdiction = cand_jur then w.jurisdiction else 0), w.jurisdiction)
    | none => (0, 0)
  let da : ℚ × ℚ :=
    match c.meta_damages with
    | some cand_damages =>
      ((if 0 < qf.total_damages ∧ 0 < cand_damages then
          w.damages * (pyMin qf.total_damages cand_damages
            / pyMax qf.total_damages cand_damages)
        else 0), w.damages)
    | none => (0, 0)
  let inj : ℚ × ℚ :=
    match c.meta_injury_types with
    | some cand_inj =>
      if ¬ qf.injury_types.isEmpty ∧ ¬ cand_inj.isEmpty then
        let overlap := setOverlapCount qf.injury_types cand_inj
        let union := setUnionCount qf.injury_types cand_inj
        ((if 0 < union then w.injury_types * ((overlap : ℚ) / (union : ℚ)) else 0),
          w.injury_types)
      else (0, 0)
    | none => (0, 0)
  let feature_similarity := ct.1 + ju.1 + da.1 + inj.1
  let feature_weight_sum := ct.2 + ju.2 + da.2 + inj.2
  let normalized_feature_similarity :=
    if 0 < feature_weight_sum then feature_similarity / feature_weight_sum else 0
  let alpha : ℚ := (7/10)
  let combined_similarity := alpha * c.similarity
    + (1 - alpha) * normalized_feature_similarity
  { c with
    original_similarity := some c.similarity,
    feature_similarity := some normalized_feature_similarity,
    similarity := combined_similarity }

/-- Embedding of `_rerank_cases_with_features` (lines 146-253): `none`
models a falsy (empty) `extracted_features`, `some qf` one produced by the
feature extractor. Python `sorted(..., reverse=True)` is a stable descending
sort, modelled by the stable `mergeSort`. -/
def rerank_cases_with_features (candidate_cases : List CandidateCase)
    (extracted_features : Option QueryFeatures) : List CandidateCase :=
  match extracted_features with
  | none => candidate_cases
  | some qf =>
    let feature_weights := get_feature_weights qf.primary_type
    let rescored := candidate_cases.map (rescore_candidate feature_weights qf)
    rescored.mergeSort fun a b => decide (b.similarity ≤ a.similarity)

/-- The re-ranking tail of `retrieve_similar_cases` (lines 137-141): re-rank
the extracted candidates and truncate to `top_k`. -/
def retrieve_rerank_step (candidate_cases : List CandidateCase)
    (extracted_features : Option QueryFeatures) (top_k : ℕ) : List CandidateCase :=
  (rerank_cases_with_features candidate_cases extracted_features).take top_k

/-! ## Specification-side definitions

These transcribe the specification text (not the source) and exist to be
compared against the embedded code. -/

/-- Complexity adjustment factor as the specification words it:
"×1.5 novel, ×1.2 complex". -/
def spec_complexity_factor (f : StatFeatures) : ℚ :=
  match f.complexity with
  | some c => if c = "novel" then (3/2) else if c = "complex" then (6/5) else 1
  | none => 1

/-- Evidence-strength adjustment factor: "×(1.5−strength)". -/
def spec_evidence_factor (f : StatFeatures) : ℚ :=
  match f.evidence_overall_strength with
  | some s => (3/2) - s
  | none => 1

/-- Procedural-stage adjustment factor: the stage-indexed table,
0.7 trial up to 1.3 pre-filing. -/
def spec_stage_factor (f : StatFeatures) : ℚ :=
  match f.stage with
  | some st => (stage_factor_table st).getD 1
  | none => 1

/-- Damage-range-width adjustment factor: 0.7 narrow / 1.0 medium / 1.3 wide. -/
def spec_range_factor (f : StatFeatures) : ℚ :=
  match f.damage_range_width with
  | some w => (damage_range_factor_table w).getD 1
  | none => 1

/-- The adjusted coefficient of variation exactly as the claim describes it:
base CV `1 − overall_confidence/10` times the four factors, clamped to
`[0.1, 2.0]`. -/
def spec_adjusted_cv (overall_confidence_score : ℚ) (f : StatFeatures) : ℚ :=
  pyMax (1/10) (pyMin 2 ((1 - overall_confidence_score / 10)
    * spec_complexity_factor f * spec_evidence_factor f
    * spec_stage_factor f * spec_range_factor f))

/-- The coefficient of variation the log-normal branch of the source
actually derives (line 482-483): the unadjusted base CV clamped to
`[0.1, 1.0]`. -/
def lognormal_base_cv (overall_confidence_score : ℚ) : ℚ :=
  pyMax (1/10) (pyMin 1 (1 - overall_confidence_score / 10))

/-! ## Concrete inputs used by counterexamples and witnesses -/

/-- Five dimension scores of 0.85 each (all weight tables sum to 1, so the
overall score becomes 8.5). -/
def midHighScores : List (String × ℚ) :=
  [("evidential_confidence", (17/20)), ("methodological_confidence", (17/20)),
   ("precedential_confidence", (17/20)), ("data_adequacy_confidence", (17/20)),
   ("stability_confidence", (17/20))]

/-- Feature slice whose case type is novel and everything else absent. -/
def novelFeatures : StatFeatures := ⟨some "novel", none, none, none⟩

/-- A similar case whose `settlement_value` holds a non-numeric string. -/
def badCase : SimilarCase := ⟨(1/2), some (.pyStr "unknown"), none, none⟩

/-- A similar case with a numeric settlement value of 100. -/
def case100 : SimilarCase := ⟨(1/2), some (.pyNum 100), none, none⟩

/-- A record whose only content is an ISO filing date. -/
def filedRecord : CaseRecord := { emptyRecord with date_filed := "2020-01-01" }

/-- A money slot that converts without an exception: absent, or a value
`float()` accepts. -/
def safeSlot : Option PyVal → Bool
  | some v => (pyFloat v).isSome
  | none => true

/-- A similar case none of whose unguarded `float(...)` calls can raise. -/
def safeCase (c : SimilarCase) : Bool :=
  safeSlot c.settlement_value &&
    (match c.metadata with
     | some md => safeSlot md.settlement_value && safeSlot md.verdict_amount
         && safeSlot md.judgment_amount
     | none => true)

/-! ## Helper lemmas -/

theorem pyMin_le_left (a b : ℚ) : pyMin a b ≤ a := by
  unfold pyMin; split_ifs with h <;> linarith

theorem le_pyMax_left (a b : ℚ) : a ≤ pyMax a b := by
  unfold pyMax; split_ifs with h <;> linarith

theorem pyClamp_bounds (lo hi x : ℚ) (h : lo ≤ hi) :
    lo ≤ pyMax lo (pyMin hi x) ∧ pyMax lo (pyMin hi x) ≤ hi := by
  unfold pyMax pyMin; split_ifs <;> constructor <;> linarith

theorem clamp01_bounds (lo hi x : ℚ) (h1 : 0 ≤ lo) (h2 : lo ≤ hi) (h3 : hi ≤ 1) :
    0 ≤ pyMax lo (pyMin hi x) ∧ pyMax lo (pyMin hi x) ≤ 1 := by
  unfold pyMax pyMin; split_ifs <;> constructor <;> linarith

theorem pyMin_le_one_bounds (b x : ℚ) (hb0 : 0 ≤ b) (hb : b ≤ 1) (hx : 0 ≤ x) :
    0 ≤ pyMin b x ∧ pyMin b x ≤ 1 := by
  unfold pyMin; split_ifs <;> constructor <;> linarith

theorem pyMin_div10_bounds (lb t : ℚ) (hl : lb ≤ t) (hub : lb ≤ 10) :
    lb / 10 ≤ pyMin 10 t / 10 ∧ pyMin 10 t / 10 ≤ 1 := by
  unfold pyMin; split_ifs <;> constructor <;> linarith

theorem pyMin_one_div_bounds (c : ℚ) (hc : 0 ≤ c) (d : ℚ) (hd : 0 < d) :
    0 ≤ pyMin 1 (c / d) ∧ pyMin 1 (c / d) ≤ 1 := by
  unfold pyMin
  have : 0 ≤ c / d := by positivity
  split_ifs <;> constructor <;> linarith

theorem classify_confidence_eq (q : ℚ) :
    classify_confidence q =
      if 9 ≤ q ∧ q ≤ 10 then "Very High Confidence"
      else if 7 ≤ q ∧ q ≤ 8 then "High Confidence"
      else if 5 ≤ q ∧ q ≤ 6 then "Moderate Confidence"
      else if 3 ≤ q ∧ q ≤ 4 then "Low Confidence"
      else if 1 ≤ q ∧ q ≤ 2 then "Very Low Confidence"
      else "Unknown" := by
  unfold classify_confidence confidence_classifications
  simp only [bucket_lookup]
  split_ifs <;> simp

/-! ## Claim C1 -/

/-- C1 (amended): the overall score of
`calculate_multi_dimensional_confidence` always lies in [1, 10] and its
classification is the bucket whose inclusive integer-aligned range
[1,2], [3,4], [5,6], [7,8] or [9,10] contains it; a score inside one of the
open gaps (2,3), (4,5), (6,7), (8,9) falls through to "Unknown" — the five
buckets do not partition [1,10]. -/
theorem multi_dimensional_classification_buckets (ct : Option String)
    (ds : List (String × ℚ)) :
    1 ≤ (calculate_multi_dimensional_confidence ct ds).overall_confidence_score ∧
    (calculate_multi_dimensional_confidence ct ds).overall_confidence_score ≤ 10 ∧
    (calculate_multi_dimensional_confidence ct ds).confidence_classification =
      (let q := (calculate_multi_dimensional_confidence ct ds).overall_confidence_score
       if 9 ≤ q ∧ q ≤ 10 then "Very High Confidence"
       else if 7 ≤ q ∧ q ≤ 8 then "High Confidence"
       else if 5 ≤ q ∧ q ≤ 6 then "Moderate Confidence"
       else if 3 ≤ q ∧ q ≤ 4 then "Low Confidence"
       else if 1 ≤ q ∧ q ≤ 2 then "Very Low Confidence"
       else "Unknown") := by
  refine ⟨?_, ?_, ?_⟩
  · simp only [calculate_multi_dimensional_confidence]
    unfold pyMin pyMax
    split_ifs <;> linarith
  · simp only [calculate_multi_dimensional_confidence]
    exact pyMin_le_left _ _
  · simp only [calculate_multi_dimensional_confidence]
    exact classify_confidence_eq _

/-- C1 (counterexample): with the default weights and all five dimension
scores at 0.85, the overall score is 8.5 — inside [1,10] — yet the returned
classification is "Unknown", not one of the five bucket labels. -/
theorem multi_dimensional_unknown_at_8_5 :
    (calculate_multi_dimensional_confidence none midHighScores).overall_confidence_score
        = (17/2) ∧
    (1 : ℚ) ≤ (17/2) ∧ ((17/2) : ℚ) ≤ 10 ∧
    (calculate_multi_dimensional_confidence none midHighScores).confidence_classification
        = "Unknown" := by
  refine ⟨?_, ?_, ?_, ?_⟩ <;> with_unfolding_all decide

/-! ## Claim C3 -/

/-- C3: the complexity cascade tests `word_count > 500` before
`word_count > 1000`, so the "novel" branch is unreachable: no record ever
receives complexity "novel" (facts of more than 1000 words receive
"complex"). -/
theorem complexity_novel_unreachable (r : CaseRecord) :
    (extract_case_type_features r).complexity ≠ "novel" := by
  simp only [extract_case_type_features]
  split_ifs with h1 h2 h3
  · simp
  · exact absurd (by omega : 500 < pyWordCount r.facts) h2
  · simp
  · simp

/-! ## Claim C2 -/

theorem public_relations_risk_nonneg (r : CaseRecord) :
    0 ≤ (extract_defendant_features r).public_relations_risk := by
  simp only [extract_defendant_features]
  split_ifs <;>
    first
      | (unfold pyMin; split_ifs <;> positivity)
      | norm_num

theorem spi_time_pressure_ge (r : CaseRecord) (today : ℤ) :
    5 ≤ spi_time_pressure r today := by
  unfold spi_time_pressure
  cases h : (extract_temporal_features r today).time_to_trial_estimate <;>
    simp only [h] <;> split_ifs <;> norm_num

theorem spi_financial_pressure_ge (r : CaseRecord) :
    3 ≤ spi_financial_pressure r := by
  simp only [spi_financial_pressure]
  split_ifs <;> norm_num

theorem spi_reputation_pressure_ge (r : CaseRecord) :
    5 ≤ spi_reputation_pressure r := by
  unfold spi_reputation_pressure
  have := public_relations_risk_nonneg r
  nlinarith

theorem spi_precedent_pressure_ge (r : CaseRecord) :
    5 ≤ spi_precedent_pressure r := by
  simp only [spi_precedent_pressure]
  split_ifs <;> norm_num

/-- C2: every scalar feature documented with a bounded scale stays inside
its documented range for every record (and every clock reading):
`overall_strength`, `witness_credibility`, `documentary_evidence_strength`,
`adr_suitability`, `sympathetic_factors` and `credibility_factors` lie in
[0,1]; `plaintiff_strength`, `defendant_strength` and the settlement
pressure `overall_index` lie in [1,10]. -/
theorem extracted_feature_bounds (r : CaseRecord) (today : ℤ) :
    (0 ≤ (extract_evidence_strength r).overall_strength ∧
      (extract_evidence_strength r).overall_strength ≤ 1) ∧
    (0 ≤ (extract_witness_features r).witness_credibility ∧
      (extract_witness_features r).witness_credibility ≤ 1) ∧
    (0 ≤ (extract_documentary_evidence r).documentary_evidence_strength ∧
      (extract_documentary_evidence r).documentary_evidence_strength ≤ 1) ∧
    (0 ≤ (extract_adr_features r).adr_suitability ∧
      (extract_adr_features r).adr_suitability ≤ 1) ∧
    (0 ≤ (extract_plaintiff_features r).sympathetic_factors ∧
      (extract_plaintiff_features r).sympathetic_factors ≤ 1) ∧
    (0 ≤ (extract_plaintiff_features r).credibility_factors ∧
      (extract_plaintiff_features r).credibility_factors ≤ 1) ∧
    (1 ≤ (create_case_strength_ratio r).plaintiff_strength ∧
      (create_case_strength_ratio r).plaintiff_strength ≤ 10) ∧
    (1 ≤ (create_case_strength_ratio r).defendant_strength ∧
      (create_case_strength_ratio r).defendant_strength ≤ 10) ∧
    (1 ≤ (create_settlement_pressure_index r today).overall_index ∧
      (create_settlement_pressure_index r today).overall_index ≤ 10) := by
  refine ⟨?_, ?_, ?_, ?_, ?_, ?_, ?_, ?_, ?_⟩
  · simp only [extract_evidence_strength]
    exact clamp01_bounds _ _ _ (by norm_num) (by norm_num) (by norm_num)
  · simp only [extract_witness_features]
    exact clamp01_bounds _ _ _ (by norm_num) (by norm_num) (by norm_num)
  · simp only [extract_documentary_evidence]
    exact clamp01_bounds _ _ _ (by norm_num) (by norm_num) (by norm_num)
  · simp only [extract_adr_features]
    exact clamp01_bounds _ _ _ (by norm_num) (by norm_num) (by norm_num)
  · simp only [extract_plaintiff_features]
    exact pyMin_le_one_bounds _ _ (by norm_num) (by norm_num) (by positivity)
  · simp only [extract_plaintiff_features]
    exact clamp01_bounds _ _ _ (by norm_num) (by norm_num) (by norm_num)
  · simp only [create_case_strength_ratio]
    exact pyClamp_bounds 1 10 _ (by norm_num)
  · simp only [create_case_strength_ratio]
    exact pyClamp_bounds 1 10 _ (by norm_num)
  · simp only [create_settlement_pressure_index]
    set a := pyMin 10 (spi_time_pressure r today) / 10 with ha
    set b := pyMin 10 (spi_financial_pressure r) / 10 with hb
    set c := pyMin 10 (spi_reputation_pressure r) / 10 with hc
    set d := pyMin 10 (spi_precedent_pressure r) / 10 with hd
    obtain ⟨htp1, htp2⟩ : 5 / 10 ≤ a ∧ a ≤ 1 := ha ▸
      pyMin_div10_bounds 5 (spi_time_pressure r today) (spi_time_pressure_ge r today)
        (by norm_num)
    obtain ⟨hfp1, hfp2⟩ : 3 / 10 ≤ b ∧ b ≤ 1 := hb ▸
      pyMin_div10_bounds 3 (spi_financial_pressure r) (spi_financial_pressure_ge r)
        (by norm_num)
    obtain ⟨hrp1, hrp2⟩ : 5 / 10 ≤ c ∧ c ≤ 1 := hc ▸
      pyMin_div10_bounds 5 (spi_reputation_pressure r) (spi_reputation_pressure_ge r)
        (by norm_num)
    obtain ⟨hpp1, hpp2⟩ : 5 / 10 ≤ d ∧ d ≤ 1 := hd ▸
      pyMin_div10_bounds 5 (spi_precedent_pressure r) (spi_precedent_pressure_ge r)
        (by norm_num)
    constructor
    · unfold pyMin
      split_ifs <;> linarith
    · exact pyMin_le_left _ _

/-! ## Claim C8 -/

/-- C8 (amended): feature extraction is a pure function of the record and
the current date, not of the record alone. When `date_filed` is absent or
unparseable the temporal features are independent of the clock; when it
parses to day number `d`, `days_since_filing` equals the current day minus
`d`, so extractions on different days differ. -/
theorem temporal_features_clock_dependence (r : CaseRecord) (t1 t2 : ℤ) :
    (parse_date_filed r.date_filed = none →
      extract_temporal_features r t1 = extract_temporal_features r t2) ∧
    (∀ d : ℤ, parse_date_filed r.date_filed = some d →
      (extract_temporal_features r t1).days_since_filing =
        (if pyTruthy r.date_filed then some (t1 - d) else none)) := by
  constructor
  · intro h
    simp [extract_temporal_features, h]
  · intro d h
    simp [extract_temporal_features, h]

/-- C8 (witness): the dependence formula at a concrete record and day. -/
theorem temporal_features_clock_dependence_witness :
    (extract_temporal_features filedRecord 19000).days_since_filing =
      (if pyTruthy filedRecord.date_filed then some ((19000 : ℤ) - 18262) else none) :=
  (temporal_features_clock_dependence filedRecord 19000 0).2 18262 (by decide)

/-- C8 (counterexample): the identical record extracted under two clock
readings one day apart yields different temporal features, refuting
"determined by the record alone". -/
theorem temporal_features_differ_across_days :
    (extract_temporal_features filedRecord 18263).days_since_filing = some 1 ∧
    (extract_temporal_features filedRecord 18262).days_since_filing = some 0 ∧
    extract_temporal_features filedRecord 18263 ≠ extract_temporal_features filedRecord 18262 := by
  refine ⟨?_, ?_, ?_⟩ <;> with_unfolding_all decide

/-! ## Claim C4 -/

theorem clamp_arg_congr {l h x y : ℚ} (hxy : x = y) :
    pyMax l (pyMin h x) = pyMax l (pyMin h y) := by rw [hxy]

set_option maxHeartbeats 1000000 in
theorem adjusted_cv_refines_spec (score : ℚ) (f : StatFeatures) :
    estimate_adjusted_cv score f = spec_adjusted_cv score f := by
  obtain ⟨c, e, s, w⟩ := f
  simp only [estimate_adjusted_cv, spec_adjusted_cv, spec_complexity_factor,
    spec_evidence_factor, spec_stage_factor, spec_range_factor]
  rcases c with _ | cs <;> rcases e with _ | es <;> rcases s with _ | ss <;>
    rcases w with _ | ws <;> (try dsimp only) <;>
    (try cases hss : stage_factor_table ss) <;> (try dsimp only) <;>
    (try cases hws : damage_range_factor_table ws) <;>
    (try simp only [Option.getD]) <;> (try split_ifs) <;>
    exact clamp_arg_congr (by ring)

/-- C4 (amended): the multi-factor adjusted CV (complexity ×1.5/×1.2,
evidence ×(1.5−strength), stage table, damage-range table, clamped to
[0.1, 2.0]) is exactly what `_estimate_prediction_variance` computes, and it
feeds only the variance of the normal fallback (`std_dev = sqrt((cv·pe)²)`,
used when `point_estimate ≤ 0`). The log-normal fit taken whenever
`point_estimate > 0` instead derives an unadjusted CV `1 − score/10` clamped
to [0.1, 1.0], with `sigma = sqrt(ln(1+CV²))` and `mu = ln(pe) − sigma²/2`. -/
theorem statistical_distribution_parameters (pe score : ℚ) (f : StatFeatures)
    (zs : NormPpf) :
    estimate_adjusted_cv score f = spec_adjusted_cv score f ∧
    (0 < pe →
      (calculate_statistical_confidence_intervals pe score f zs).distribution_type
          = "log-normal" ∧
      (calculate_statistical_confidence_intervals pe score f zs).lognormal_params =
        some (Real.log (pe : ℝ)
            - Real.sqrt (Real.log (1 + (lognormal_base_cv score : ℝ) ^ 2)) ^ 2 / 2,
          Real.sqrt (Real.log (1 + (lognormal_base_cv score : ℝ) ^ 2))) ∧
      (calculate_statistical_confidence_intervals pe score f zs).normal_params = none) ∧
    (pe ≤ 0 →
      (calculate_statistical_confidence_intervals pe score f zs).distribution_type
          = "normal" ∧
      (calculate_statistical_confidence_intervals pe score f zs).normal_params =
        some ((pe : ℝ), Real.sqrt (((spec_adjusted_cv score f * pe) ^ 2 : ℚ) : ℝ)) ∧
      (calculate_statistical_confidence_intervals pe score f zs).lognormal_params
          = none) := by
  refine ⟨adjusted_cv_refines_spec score f, ?_, ?_⟩
  · intro hpe
    refine ⟨?_, ?_, ?_⟩ <;>
      simp only [calculate_statistical_confidence_intervals, if_pos hpe,
        lognormal_base_cv]
  · intro hpe
    refine ⟨?_, ?_, ?_⟩ <;>
      simp only [calculate_statistical_confidence_intervals,
        if_neg (not_lt.mpr hpe), estimate_prediction_variance,
        adjusted_cv_refines_spec score f]

/-- C4 (witness): the theorem applied at a concrete positive estimate. -/
theorem statistical_distribution_parameters_witness :
    (calculate_statistical_confidence_intervals 1 5 noStatFeatures stdNormPpf).distribution_type
        = "log-normal" ∧
    (calculate_statistical_confidence_intervals 1 5 noStatFeatures stdNormPpf).lognormal_params =
      some (Real.log ((1 : ℚ) : ℝ)
          - Real.sqrt (Real.log (1 + (lognormal_base_cv 5 : ℝ) ^ 2)) ^ 2 / 2,
        Real.sqrt (Real.log (1 + (lognormal_base_cv 5 : ℝ) ^ 2))) ∧
    (calculate_statistical_confidence_intervals 1 5 noStatFeatures stdNormPpf).normal_params
        = none :=
  (statistical_distribution_parameters 1 5 noStatFeatures stdNormPpf).2.1 (by norm_num)

/-- C4 (counterexample): at `point_estimate = 1000`, `score = 5` and novel
complexity, the adjusted CV of the claim is 0.75, yet the log-normal sigma
the code computes comes from the unadjusted CV 0.5 — the claim "fits the
log-normal distribution from that adjusted CV" is false. -/
theorem lognormal_sigma_not_adjusted_cv :
    (calculate_statistical_confidence_intervals 1000 5 novelFeatures stdNormPpf).lognormal_params.map
        Prod.snd ≠
      some (Real.sqrt (Real.log (1 + ((spec_adjusted_cv 5 novelFeatures : ℚ) : ℝ) ^ 2))) := by
  have hcv : pyMax (1/10) (pyMin 1 ((1 : ℚ) - 5 / 10)) = 1/2 := by
    with_unfolding_all decide
  have hspec : spec_adjusted_cv 5 novelFeatures = 3/4 := by
    with_unfolding_all decide
  have hcode : (calculate_statistical_confidence_intervals 1000 5 novelFeatures stdNormPpf).lognormal_params.map
      Prod.snd = some (Real.sqrt (Real.log (1 + ((1/2 : ℚ) : ℝ) ^ 2))) := by
    simp only [calculate_statistical_confidence_intervals,
      if_pos (by norm_num : (0:ℚ) < 1000), hcv, Option.map]
  rw [hcode, hspec]
  intro h
  have h' := Option.some.inj h
  have hlt : ((1:ℝ) + ((1/2 : ℚ) : ℝ) ^ 2) < 1 + ((3/4 : ℚ) : ℝ) ^ 2 := by
    push_cast; norm_num
  have hpos : (0:ℝ) < 1 + ((1/2 : ℚ) : ℝ) ^ 2 := by positivity
  have hlog := Real.log_lt_log hpos hlt
  have hlog0 : 0 ≤ Real.log (1 + ((1/2 : ℚ) : ℝ) ^ 2) :=
    Real.log_nonneg (by push_cast; norm_num)
  exact absurd h' (ne_of_lt (Real.sqrt_lt_sqrt hlog0 hlog))

/-! ## Claim C6 -/

/-- C6 (amended): for every nonnegative point estimate each returned
interval satisfies lower ≤ upper, and the intervals nest (the 50% interval
inside the 80% inside the 90%: lower bounds decrease and upper bounds
increase outward). For negative point estimates the zero floor of the
normal fallback can push the lower bound above a negative upper bound. -/
theorem interval_ordering_nonneg_estimate (pe score : ℚ) (f : StatFeatures)
    (zs : NormPpf) (hpe : 0 ≤ pe) :
    ((calculate_statistical_confidence_intervals pe score f zs).confidence_intervals.i90.lower ≤
      (calculate_statistical_confidence_intervals pe score f zs).confidence_intervals.i90.upper ∧
     (calculate_statistical_confidence_intervals pe score f zs).confidence_intervals.i80.lower ≤
      (calculate_statistical_confidence_intervals pe score f zs).confidence_intervals.i80.upper ∧
     (calculate_statistical_confidence_intervals pe score f zs).confidence_intervals.i50.lower ≤
      (calculate_statistical_confidence_intervals pe score f zs).confidence_intervals.i50.upper) ∧
    ((calculate_statistical_confidence_intervals pe score f zs).confidence_intervals.i90.lower ≤
      (calculate_statistical_confidence_intervals pe score f zs).confidence_intervals.i80.lower ∧
     (calculate_statistical_confidence_intervals pe score f zs).confidence_intervals.i80.lower ≤
      (calculate_statistical_confidence_intervals pe score f zs).confidence_intervals.i50.lower ∧
     (calculate_statistical_confidence_intervals pe score f zs).confidence_intervals.i50.upper ≤
      (calculate_statistical_confidence_intervals pe score f zs).confidence_intervals.i80.upper ∧
     (calculate_statistical_confidence_intervals pe score f zs).confidence_intervals.i80.upper ≤
      (calculate_statistical_confidence_intervals pe score f zs).confidence_intervals.i90.upper) := by
  have hz05 : (zs.z05 : ℝ) ≤ (zs.z10 : ℝ) := by exact_mod_cast zs.h05_10
  have hz10 : (zs.z10 : ℝ) ≤ (zs.z25 : ℝ) := by exact_mod_cast zs.h10_25
  have hz25 : (zs.z25 : ℝ) ≤ (zs.z75 : ℝ) := by
    exact_mod_cast le_of_lt (lt_trans zs.h25_neg zs.h75_pos)
  have hz75 : (zs.z75 : ℝ) ≤ (zs.z90 : ℝ) := by exact_mod_cast zs.h75_90
  have hz90 : (zs.z90 : ℝ) ≤ (zs.z95 : ℝ) := by exact_mod_cast zs.h90_95
  rcases lt_or_eq_of_le hpe with hpos | heq
  · simp only [calculate_statistical_confidence_intervals, if_pos hpos]
    have hσ := Real.sqrt_nonneg
      (Real.log (1 + (pyMax (1/10) (pyMin 1 (1 - score / 10)) : ℝ) ^ 2))
    have m1 := mul_le_mul_of_nonneg_right hz05 hσ
    have m2 := mul_le_mul_of_nonneg_right hz10 hσ
    have m3 := mul_le_mul_of_nonneg_right hz25 hσ
    have m4 := mul_le_mul_of_nonneg_right hz75 hσ
    have m5 := mul_le_mul_of_nonneg_right hz90 hσ
    refine ⟨⟨?_, ?_, ?_⟩, ?_, ?_, ?_, ?_⟩ <;>
      exact Real.exp_le_exp.mpr (by linarith)
  · have hpe0 : pe = 0 := heq.symm
    subst hpe0
    have hvar : estimate_prediction_variance 0 score f = 0 := by
      simp [estimate_prediction_variance]
    simp only [calculate_statistical_confidence_intervals,
      if_neg (lt_irrefl (0 : ℚ)), hvar]
    refine ⟨⟨?_, ?_, ?_⟩, ?_, ?_, ?_, ?_⟩ <;> simp

/-- C6 (witness): the ordering theorem applied at a concrete input. -/
theorem interval_ordering_nonneg_estimate_witness :
    ((calculate_statistical_confidence_intervals 1 5 noStatFeatures stdNormPpf).confidence_intervals.i90.lower ≤
      (calculate_statistical_confidence_intervals 1 5 noStatFeatures stdNormPpf).confidence_intervals.i90.upper ∧
     (calculate_statistical_confidence_intervals 1 5 noStatFeatures stdNormPpf).confidence_intervals.i80.lower ≤
      (calculate_statistical_confidence_intervals 1 5 noStatFeatures stdNormPpf).confidence_intervals.i80.upper ∧
     (calculate_statistical_confidence_intervals 1 5 noStatFeatures stdNormPpf).confidence_intervals.i50.lower ≤
      (calculate_statistical_confidence_intervals 1 5 noStatFeatures stdNormPpf).confidence_intervals.i50.upper) ∧
    ((calculate_statistical_confidence_intervals 1 5 noStatFeatures stdNormPpf).confidence_intervals.i90.lower ≤
      (calculate_statistical_confidence_intervals 1 5 noStatFeatures stdNormPpf).confidence_intervals.i80.lower ∧
     (calculate_statistical_confidence_intervals 1 5 noStatFeatures stdNormPpf).confidence_intervals.i80.lower ≤
      (calculate_statistical_confidence_intervals 1 5 noStatFeatures stdNormPpf).confidence_intervals.i50.lower ∧
     (calculate_statistical_confidence_intervals 1 5 noStatFeatures stdNormPpf).confidence_intervals.i50.upper ≤
      (calculate_statistical_confidence_intervals 1 5 noStatFeatures stdNormPpf).confidence_intervals.i80.upper ∧
     (calculate_statistical_confidence_intervals 1 5 noStatFeatures stdNormPpf).confidence_intervals.i80.upper ≤
      (calculate_statistical_confidence_intervals 1 5 noStatFeatures stdNormPpf).confidence_intervals.i90.upper) :=
  interval_ordering_nonneg_estimate 1 5 noStatFeatures stdNormPpf (by norm_num)

/-- C6 (counterexample): at point estimate −100 with a confident score of 9,
the zero-floored normal 90% interval has `upper < lower`: "each interval
satisfies lower ≤ upper for any real point_estimate" is false. -/
theorem negative_estimate_interval_inverted :
    (calculate_statistical_confidence_intervals (-100) 9 noStatFeatures stdNormPpf).confidence_intervals.i90.upper <
    (calculate_statistical_confidence_intervals (-100) 9 noStatFeatures stdNormPpf).confidence_intervals.i90.lower := by
  have hvar : estimate_prediction_variance (-100) 9 noStatFeatures = 100 := by
    with_unfolding_all decide
  simp only [calculate_statistical_confidence_intervals,
    if_neg (by norm_num : ¬ (0 : ℚ) < -100), hvar]
  have h100 : ((100 : ℚ) : ℝ) = 10 ^ 2 := by norm_num
  rw [h100, Real.sqrt_sq (by norm_num : (0:ℝ) ≤ 10)]
  simp only [stdNormPpf]
  have hlow : ((-100 : ℚ) : ℝ) + ((-(16449/10000) : ℚ) : ℝ) * 10 ≤ 0 := by
    push_cast; norm_num
  rw [max_eq_left hlow]
  push_cast
  norm_num

/-! ## Claim C5 -/

/-- C5: with two comparator settlement values of 100 and a point estimate of
100, the consistency base is 1.0 and the in-range boost multiplies it by 1.2
with no re-clamp, so the returned `value_consistency_factor` is 1.2 — above
the "(0-1)" range the source documents for it. -/
theorem value_consistency_factor_exceeds_one :
    (calculate_similarity_based_confidence [case100, case100] 100).map
        (fun res => res.value_consistency_factor) = .ok ((6/5 : ℝ)) ∧
    (1 : ℝ) < 6/5 := by
  constructor
  · have hmapM : [case100, case100].mapM
        (fun c => (extract_settlement_value_from_case c).map (fun v => (c.similarity, v)))
        = Except.ok [((1/2 : ℚ), some (100 : ℚ)), ((1/2 : ℚ), some (100 : ℚ))] := by
      with_unfolding_all rfl
    have h1 : pyListMin [(100 : ℚ), 100] = 100 := by with_unfolding_all decide
    have h2 : pyListMax [(100 : ℚ), 100] = 100 := by with_unfolding_all decide
    simp only [calculate_similarity_based_confidence, List.isEmpty_cons,
      Bool.false_eq_true, if_false, hmapM]
    norm_num [List.filterMap, List.sum_cons, List.sum_nil, List.map, h1, h2,
      Real.sqrt_zero, Except.map]
  · norm_num

/-! ## Claim C9 -/

theorem extract_ok_of_safe (c : SimilarCase) (h : safeCase c = true) :
    (extract_settlement_value_from_case c).isOk = true := by
  obtain ⟨sim, sv, dm, md⟩ := c
  simp only [safeCase, safeSlot, Bool.and_eq_true] at h
  simp only [extract_settlement_value_from_case]
  repeat' split
  all_goals simp_all [Except.isOk, Except.toBool, Option.isSome]

theorem mapM_extract_ok (l : List SimilarCase)
    (hall : ∀ c ∈ l, safeCase c = true) :
    (l.mapM (fun c => (extract_settlement_value_from_case c).map
      (fun v => (c.similarity, v)))).isOk = true := by
  induction l with
  | nil => rfl
  | cons a t ih =>
    rw [List.mapM_cons]
    have ha := extract_ok_of_safe a (hall a (by simp))
    have ht := ih (fun c hc => hall c (by simp [hc]))
    rcases hx : extract_settlement_value_from_case a with e | v
    · rw [hx] at ha
      simp [Except.isOk, Except.toBool] at ha
    · rcases hy : t.mapM (fun c => (extract_settlement_value_from_case c).map
          (fun v => (c.similarity, v))) with e | vs
      · rw [hy] at ht
        simp [Except.isOk, Except.toBool] at ht
      · simp [hx, hy, Except.map, Except.isOk, Except.toBool, Except.bind,
          bind, pure, Except.pure]

/-- C9 (amended): no exception escapes
`calculate_similarity_based_confidence` provided every similar case's
`settlement_value` and monetary metadata entries are absent or values
`float()` converts (numbers or numeric strings); arbitrary well-typed values
in those slots do raise (see the counterexample). -/
theorem similarity_confidence_total_on_safe (cases_l : List SimilarCase)
    (pe : ℚ) (h : ∀ c ∈ cases_l, safeCase c = true) :
    (calculate_similarity_based_confidence cases_l pe).isOk = true := by
  simp only [calculate_similarity_based_confidence]
  cases hne : cases_l.isEmpty
  · simp only [hne, Bool.false_eq_true, if_false]
    have hok := mapM_extract_ok cases_l h
    rcases hm : cases_l.mapM (fun c => (extract_settlement_value_from_case c).map
        (fun v => (c.similarity, v))) with e | pairs
    · rw [hm] at hok
      simp [Except.isOk, Except.toBool] at hok
    · rfl
  · simp only [hne, if_true]
    rfl

/-- C9 (witness): the totality theorem at a concrete numeric case list. -/
theorem similarity_confidence_total_on_safe_witness :
    (calculate_similarity_based_confidence [case100] 5).isOk = true :=
  similarity_confidence_total_on_safe [case100] 5 (by with_unfolding_all decide)

/-- C9 (counterexample): a well-typed similar case whose `settlement_value`
is the string "unknown" makes the unguarded `float(...)` of line 864 raise,
and the exception escapes `calculate_similarity_based_confidence` (and so
its caller `calculate_combined_confidence`, line 1232). -/
theorem similarity_confidence_raises_on_string_value :
    calculate_similarity_based_confidence [badCase] 1000 = .error () := by
  with_unfolding_all rfl

/-! ## Claim C10 -/

/-- C10: when the point estimate is not strictly positive the interval-width
computation is skipped — the statistical component takes the default 0.5
(reported as 5 on the 1-10 component scale) — and the consensus score is
still the 0.5/0.3/0.2 blend, clamped to [0.1, 1.0] and rescaled to [1, 10];
no division by the point estimate occurs. -/
theorem consensus_defaults_on_nonpositive_estimate (md : ℚ) (sim : ℝ)
    (stat : StatisticalConfidence) (h : stat.point_estimate ≤ 0) :
    (calculate_consensus_confidence md sim stat).statistical_component = 5 ∧
    (calculate_consensus_confidence md sim stat).consensus_confidence_score =
      (max (1/10) (min 1 (((md / 10 : ℚ) : ℝ) * (1/2) + (1/2 : ℝ) * (3/10)
        + sim * (1/5)))) * 10 ∧
    1 ≤ (calculate_consensus_confidence md sim stat).consensus_confidence_score ∧
    (calculate_consensus_confidence md sim stat).consensus_confidence_score ≤ 10 := by
  have hn : ¬ 0 < stat.point_estimate := not_lt.mpr h
  refine ⟨?_, ?_, ?_, ?_⟩
  · simp only [calculate_consensus_confidence, hn, if_false]
    norm_num
  · simp only [calculate_consensus_confidence, hn, if_false]
  · simp only [calculate_consensus_confidence, hn, if_false]
    have h1 : (1/10 : ℝ) ≤ max (1/10) (min 1 ((((md / 10 : ℚ)) : ℝ) * (1/2)
        + (1/2 : ℝ) * (3/10) + sim * (1/5))) := le_max_left _ _
    linarith
  · simp only [calculate_consensus_confidence, hn, if_false]
    have h2 : max (1/10 : ℝ) (min 1 ((((md / 10 : ℚ)) : ℝ) * (1/2)
        + (1/2 : ℝ) * (3/10) + sim * (1/5))) ≤ 1 :=
      max_le (by norm_num) (min_le_left _ _)
    linarith

/-- C10 (witness): the consensus theorem at a concrete statistical result
with a zero point estimate. -/
theorem consensus_defaults_on_nonpositive_estimate_witness :
    (calculate_consensus_confidence 5 (1/2)
        ⟨0, "normal", none, some (0, 0), ⟨⟨0, 0⟩, ⟨0, 0⟩, ⟨0, 0⟩⟩⟩).statistical_component
      = 5 ∧
    (calculate_consensus_confidence 5 (1/2)
        ⟨0, "normal", none, some (0, 0), ⟨⟨0, 0⟩, ⟨0, 0⟩, ⟨0, 0⟩⟩⟩).consensus_confidence_score =
      (max (1/10) (min 1 ((((5 : ℚ) / 10 : ℚ) : ℝ) * (1/2) + (1/2 : ℝ) * (3/10)
        + (1/2 : ℝ) * (1/5)))) * 10 ∧
    1 ≤ (calculate_consensus_confidence 5 (1/2)
        ⟨0, "normal", none, some (0, 0), ⟨⟨0, 0⟩, ⟨0, 0⟩, ⟨0, 0⟩⟩⟩).consensus_confidence_score ∧
    (calculate_consensus_confidence 5 (1/2)
        ⟨0, "normal", none, some (0, 0), ⟨⟨0, 0⟩, ⟨0, 0⟩, ⟨0, 0⟩⟩⟩).consensus_confidence_score ≤ 10 :=
  consensus_defaults_on_nonpositive_estimate 5 (1/2) _ (le_refl 0)

/-! ## Claim C7 -/

/-- C7: the re-ranking step returns exactly `min top_k |candidates|` cases,
introduces no id absent from the candidate list, filters nothing — each
candidate is only re-scored with combined similarity
`0.7·vector + 0.3·normalized feature similarity` — and the output is sorted
descending by combined similarity (by a stable sort) before truncation; with
falsy extracted features the candidates pass through untouched. -/
theorem rerank_preserves_and_orders (cands : List CandidateCase)
    (qf : QueryFeatures) (top_k : ℕ) :
    (retrieve_rerank_step cands (some qf) top_k).length = min top_k cands.length ∧
    (∀ c ∈ retrieve_rerank_step cands (some qf) top_k,
      c.id ∈ cands.map (fun c0 => c0.id)) ∧
    (retrieve_rerank_step cands (some qf) top_k).Sorted
      (fun a b => b.similarity ≤ a.similarity) ∧
    (∀ c ∈ retrieve_rerank_step cands (some qf) top_k, ∃ c0 ∈ cands,
      c = rescore_candidate (get_feature_weights qf.primary_type) qf c0 ∧
      c.id = c0.id ∧ c.original_similarity = some c0.similarity ∧
      ∃ nfs : ℚ, c.feature_similarity = some nfs ∧
        c.similarity = (7/10) * c0.similarity + (1 - 7/10) * nfs) ∧
    retrieve_rerank_step cands none top_k = cands.take top_k := by
  have htrans : ∀ a b c : CandidateCase,
      decide (b.similarity ≤ a.similarity) = true →
      decide (c.similarity ≤ b.similarity) = true →
      decide (c.similarity ≤ a.similarity) = true := by
    intro a b c hab hbc
    simp only [decide_eq_true_eq] at *
    exact le_trans hbc hab
  have htotal : ∀ a b : CandidateCase,
      (decide (b.similarity ≤ a.similarity) ||
        decide (a.similarity ≤ b.similarity)) = true := by
    intro a b
    simp only [Bool.or_eq_true, decide_eq_true_eq]
    exact le_total b.similarity a.similarity
  simp only [retrieve_rerank_step, rerank_cases_with_features]
  have hperm := List.mergeSort_perm (cands.map
      (rescore_candidate (get_feature_weights qf.primary_type) qf))
    (fun a b => decide (b.similarity ≤ a.similarity))
  refine ⟨?_, ?_, ?_, ?_, trivial⟩
  · rw [List.length_take, hperm.length_eq, List.length_map]
  · intro c hc
    have h1 := hperm.mem_iff.mp (List.take_subset _ _ hc)
    rcases List.mem_map.mp h1 with ⟨c0, hc0, rfl⟩
    have hid : (rescore_candidate (get_feature_weights qf.primary_type) qf c0).id
        = c0.id := rfl
    rw [hid]
    exact List.mem_map_of_mem _ hc0
  · have hs := List.sorted_mergeSort htrans htotal (cands.map
      (rescore_candidate (get_feature_weights qf.primary_type) qf))
    have hs2 : (List.mergeSort (cands.map
        (rescore_candidate (get_feature_weights qf.primary_type) qf))
        (fun a b => decide (b.similarity ≤ a.similarity))).Pairwise
        (fun a b : CandidateCase => b.similarity ≤ a.similarity) :=
      hs.imp (fun h => by simpa using h)
    exact hs2.sublist (List.take_sublist _ _)
  · intro c hc
    have h1 := hperm.mem_iff.mp (List.take_subset _ _ hc)
    rcases List.mem_map.mp h1 with ⟨c0, hc0, rfl⟩
    exact ⟨c0, hc0, rfl, rfl, rfl, _, rfl, rfl⟩
